import Mathlib

/-!
Shallow embedding of `examples/gstreamer/main.rs`: a GStreamer video pipeline
fanned out to two Slint windows.  Each window owns

  * a single-slot frame mailbox (`current_sample : Arc<Mutex<Option<Sample>>>`)
    written by the appsink new-sample callback and read by the rendering
    notifier, and
  * a lazily materialized wrapped GL context
    (`gst_gl_context : Arc<Mutex<Option<GstGlContext>>>`).

The pipeline bus sync handler answers `NeedContext` messages by resolving the
requesting element's parent name to one of the two branches.  We embed the
relevant functions as pure Lean functions over explicit state; the results of
fallible external library calls (GStreamer, EGL) are modelled as `Option`
valued oracle fields on the input data, and a Rust `unwrap`/`expect`/`panic!`
on such a failure is modelled as a distinguished `panics` outcome.
-/

namespace GstSlint

/-- Identity of a wrapped `gstreamer_gl::GLContext` (opaque handle). -/
structure GLContext where
  id : Nat
deriving DecidableEq, Repr

/-- Identity of a `gstreamer_gl_egl::GLDisplayEGL` (opaque handle). -/
structure GLDisplayEGL where
  id : Nat
deriving DecidableEq, Repr

/-- `struct GstGlContext { context, display }` from main.rs. -/
structure GstGlContext where
  context : GLContext
  display : GLDisplayEGL
deriving DecidableEq, Repr

/-- Decoded format metadata, the result of `VideoInfo::from_caps`. -/
structure VideoInfo where
  infoWidth : Nat
  infoHeight : Nat
deriving DecidableEq, Repr

/-- A `gstreamer_gl::GLVideoFrame`.  `textureId0` is the (fallible) result of
`frame.texture_id(0)`; `width`/`height` are the frame dimensions. -/
structure GLVideoFrame where
  textureId0 : Option Nat
  width : Nat
  height : Nat
deriving DecidableEq, Repr

/-- A `gstreamer::Buffer`.  `readableFrame` is the oracle result of
`GLVideoFrame::from_buffer_readable(buffer, &info)` on this buffer: `none`
models the call failing. -/
structure Buffer where
  readableFrame : Option GLVideoFrame
deriving DecidableEq, Repr

/-- A `gstreamer::Caps`.  `videoInfo` is the oracle result of
`VideoInfo::from_caps(caps)`: `none` models the conversion failing. -/
structure Caps where
  videoInfo : Option VideoInfo
deriving DecidableEq, Repr

/-- A `gstreamer::Sample`.  `bufferOwned` is the result of
`sample.buffer_owned()` and `caps` the result of `sample.caps()`; `none`
models the respective accessor returning nothing. -/
structure Sample where
  bufferOwned : Option Buffer
  caps : Option Caps
deriving DecidableEq, Repr

/-! ## Frame mailbox

The new-sample callback (main.rs, `set_appsink_callback`) ends in
`*current_sample_ref.try_lock().unwrap() = Some(sample)`: an unconditional
overwrite of the per-window slot.  The rendering notifier reads the slot with
`current_sample.try_lock().unwrap()`. -/

/-- One publish by the new-sample callback: the slot is overwritten
unconditionally with the pulled sample. -/
def publish (_slot : Option Sample) (sample : Sample) : Option Sample :=
  some sample

/-- A sequence of publishes applied in order to a mailbox slot. -/
def publishAll (slot : Option Sample) (frames : List Sample) : Option Sample :=
  frames.foldl publish slot

/-- A mailbox read: the notifier takes the lock and looks at the option. -/
def readMailbox (slot : Option Sample) : Option Sample :=
  slot

/-! ## Render bridge (`BeforeRendering` arm of the rendering notifier)

The arm reads the mailbox; an empty slot is an early `return` (skip).  A held
sample is then taken through `buffer_owned().unwrap()`,
`caps().map(from_caps(..).unwrap()).unwrap()`,
`from_buffer_readable(..).expect(..)`, `texture_id(0).expect(..)` and
`NonZero::try_from(texture).expect(..)`; each failure is a panic in the Rust
code.  On success the texture is wrapped and handed to
`set_video_frame`. -/

inductive RenderOutcome where
  /-- Early return: this draw tick shows no new video content. -/
  | skip : RenderOutcome
  /-- `set_video_frame` called with this texture id and size. -/
  | setVideoFrame (texture : Nat) (width : Nat) (height : Nat) : RenderOutcome
  /-- One of the `unwrap`/`expect` calls fired: the notifier panics. -/
  | panics : RenderOutcome
deriving DecidableEq, Repr

/-- The `BeforeRendering` arm of `per_window_data_set_rendering_notifier`,
as a function of the mailbox contents. -/
def beforeRendering (slot : Option Sample) : RenderOutcome :=
  match slot with
  | none => .skip
  | some sample =>
    match sample.bufferOwned with
    | none => .panics
    | some buffer =>
      match sample.caps with
      | none => .panics
      | some caps =>
        match caps.videoInfo with
        | none => .panics
        | some _info =>
          match buffer.readableFrame with
          | none => .panics
          | some frame =>
            match frame.textureId0 with
            | none => .panics
            | some texture =>
              if texture = 0 then .panics
              else .setVideoFrame texture frame.width frame.height

/-- The texture-extraction steps of `beforeRendering` fail on this sample:
some accessor or conversion in the chain comes back empty, or the texture id
is zero. -/
def textureExtractionFails (sample : Sample) : Bool :=
  match sample.bufferOwned with
  | none => true
  | some buffer =>
    match sample.caps with
    | none => true
    | some caps =>
      match caps.videoInfo with
      | none => true
      | some _info =>
        match buffer.readableFrame with
        | none => true
        | some frame =>
          match frame.textureId0 with
          | none => true
          | some texture => texture = 0

/-! ## Two-branch player state (mailbox isolation)

`Player::new` builds `per_window_data1` and `per_window_data2` with two
freshly allocated, distinct `current_sample` slots; each appsink callback
captures only its own slot. -/

/-- The two frame mailboxes of the two `PerWindowData` values. -/
structure PlayerSlots where
  mailbox1 : Option Sample
  mailbox2 : Option Sample
deriving DecidableEq, Repr

/-- Branch 1's new-sample callback writes only `per_window_data1.current_sample`. -/
def publishBranch1 (slots : PlayerSlots) (sample : Sample) : PlayerSlots :=
  { slots with mailbox1 := publish slots.mailbox1 sample }

/-- Branch 2's new-sample callback writes only `per_window_data2.current_sample`. -/
def publishBranch2 (slots : PlayerSlots) (sample : Sample) : PlayerSlots :=
  { slots with mailbox2 := publish slots.mailbox2 sample }

/-! ## GPU context adapter (`RenderingSetup` arm of the rendering notifier)

The arm first dispatches on `graphics_api`: anything but
`GraphicsAPI::NativeOpenGL` hits `panic!("unsupported graphics API")`.  Under
native OpenGL it locks `gst_gl_context`; if the slot is `None` it wraps the
current EGL context/display (`new_wrapped(..).expect(..)`,
`activate(true).expect(..)`, `fill_info().expect(..)`) and stores it, and if
the slot is already `Some` it only prints
"Shared GL context already created". -/

/-- The `slint::GraphicsAPI` the rendering notifier receives.  The Rust match
has one named arm (`NativeOpenGL`) and a catch-all. -/
inductive GraphicsAPI where
  | nativeOpenGL : GraphicsAPI
  | wgpu : GraphicsAPI
  | otherAPI : GraphicsAPI
deriving DecidableEq, Repr

inductive SetupOutcome where
  /-- The arm finished; this is the resulting `gst_gl_context` slot. -/
  | done (slot : Option GstGlContext) : SetupOutcome
  /-- A `panic!` or `expect` fired during setup. -/
  | panics : SetupOutcome
deriving DecidableEq, Repr

/-- One invocation of the `RenderingSetup` arm.  `wrapped` is the oracle
result of `GLContext::new_wrapped` on the current native EGL context (`none`
models failure); `activateOk`/`fillInfoOk` model `activate(true)` and
`fill_info()` succeeding. -/
def renderingSetup (api : GraphicsAPI) (slot : Option GstGlContext)
    (wrapped : Option GstGlContext) (activateOk fillInfoOk : Bool) :
    SetupOutcome :=
  match api with
  | .nativeOpenGL =>
    match slot with
    | some c => .done (some c)
    | none =>
      match wrapped with
      | none => .panics
      | some c =>
        if activateOk then
          if fillInfoOk then .done (some c) else .panics
        else .panics
  | _ => .panics

/-- Parameters of one `RenderingSetup` invocation (everything but the slot). -/
structure SetupInvocation where
  api : GraphicsAPI
  wrapped : Option GstGlContext
  activateOk : Bool
  fillInfoOk : Bool
deriving DecidableEq, Repr

/-- The slot after one invocation: a panic aborts before the write, so the
slot keeps its old value. -/
def slotAfter (slot : Option GstGlContext) (inv : SetupInvocation) :
    Option GstGlContext :=
  match renderingSetup inv.api slot inv.wrapped inv.activateOk inv.fillInfoOk with
  | .done newSlot => newSlot
  | .panics => slot

/-- The slot after a sequence of `RenderingSetup` invocations. -/
def slotAfterAll (slot : Option GstGlContext) (invs : List SetupInvocation) :
    Option GstGlContext :=
  invs.foldl slotAfter slot

/-! ## Context negotiation responder (`Player::setup_bus_handler`)

The bus sync handler matches `NeedContext` messages, resolves the requesting
element's parent name to a branch (`"glsink1"`/`"glsink2"`), reads that
branch's `gst_gl_context` slot, and answers with a `Context` of the requested
type; an empty slot is answered with `BusSyncReply::Drop`, an unrecognized
parent with `BusSyncReply::Pass`.  Nothing in the handler writes to either
slot. -/

inductive BusSyncReply where
  | drop : BusSyncReply
  | pass : BusSyncReply
deriving DecidableEq, Repr

/-- A bus message as far as the sync handler inspects it: either a
`NeedContext` message carrying the requesting element's parent name and the
requested context type, or any other message. -/
inductive Message where
  | needContext (parentName : String) (ctxType : String) : Message
  | otherMessage : Message
deriving DecidableEq, Repr

/-- `element.set_context(..)` calls the handler makes on the requesting
element. -/
inductive ElementAction where
  /-- A `gst.gl.GLDisplay` context carrying the branch's display. -/
  | setDisplayContext (display : GLDisplayEGL) : ElementAction
  /-- A `gst.gl.app_context` context carrying the branch's wrapped context. -/
  | setAppContext (context : GLContext) : ElementAction
deriving DecidableEq, Repr

/-- The value of `gstreamer_gl::GL_DISPLAY_CONTEXT_TYPE`. -/
def glDisplayContextType : String := "gst.gl.GLDisplay"

/-- The two fan-out branches. -/
inductive Branch where
  | one : Branch
  | two : Branch
deriving DecidableEq, Repr

/-- The `match parent_name.as_str()` dispatch: `"glsink1"`/`"glsink2"` name
the two branches, anything else is unrecognized. -/
def resolveBranch (parentName : String) : Option Branch :=
  if parentName = "glsink1" then some .one
  else if parentName = "glsink2" then some .two
  else none

/-- The branch's `gst_gl_context` slot selected by the dispatch. -/
def branchContext (context1 context2 : Option GstGlContext) :
    Branch → Option GstGlContext
  | .one => context1
  | .two => context2

/-- The bus sync handler closure of `setup_bus_handler`, as a function of the
two captured `gst_gl_context` slots and the message.  It returns the reply,
the two slots as left behind (the handler never writes them), and the
`set_context` calls made. -/
def busSyncHandler (context1 context2 : Option GstGlContext) (msg : Message) :
    BusSyncReply × (Option GstGlContext × Option GstGlContext) × List ElementAction :=
  match msg with
  | .otherMessage => (.pass, (context1, context2), [])
  | .needContext parentName ctxType =>
    match resolveBranch parentName with
    | none => (.pass, (context1, context2), [])
    | some branch =>
      match branchContext context1 context2 branch with
      | none => (.drop, (context1, context2), [])
      | some glContext =>
        if ctxType = glDisplayContextType then
          (.pass, (context1, context2), [.setDisplayContext glContext.display])
        else if ctxType = "gst.gl.app_context" then
          (.pass, (context1, context2), [.setAppContext glContext.context])
        else
          (.pass, (context1, context2), [])

/-! ## Pipeline lifecycle: construction and teardown

`Player::new` builds every element and link before returning; it never calls
`set_state`.  Fallible steps either propagate an error with `?` or panic via
`unwrap()`: in particular `request_pad_simple(..).unwrap()`,
`dynamic_cast::<AppSink>().unwrap()`, `static_pad(..).unwrap()` and
`videoconvert.link(&capsfilter).unwrap()` panic on failure, while
element construction, `add_many` and the remaining `link` calls use `?`.
`Drop for Player` sends an EOS event and then sets the pipeline state to
`Null`. -/

inductive PipelineState where
  | null : PipelineState
  | ready : PipelineState
  | paused : PipelineState
  | playing : PipelineState
deriving DecidableEq, Repr

/-- Pipeline-level effects relevant to lifecycle ordering. -/
inductive PipelineAction where
  | sendEos : PipelineAction
  | setState (s : PipelineState) : PipelineAction
deriving DecidableEq, Repr

/-- The body of `Drop for Player`, as the ordered list of pipeline effects:
`send_event(Eos)` then `set_state(Null)`. -/
def playerDropTrace : List PipelineAction :=
  [.sendEos, .setState .null]

/-- Success/failure of each fallible step of `Player::new`, in the order the
code performs them.  `true` means the underlying library call succeeds. -/
structure ConstructionWorld where
  initOk : Bool
  makeSourceOk : Bool
  makeCapsfilterOk : Bool
  makeVideoconvertOk : Bool
  makeQueue1Ok : Bool
  makeQueue2Ok : Bool
  makeQueue3Ok : Bool
  makeTeeOk : Bool
  requestTeePad1Ok : Bool
  requestTeePad2Ok : Bool
  makeAppsink1Ok : Bool
  castAppsink1Ok : Bool
  makeAppsink2Ok : Bool
  castAppsink2Ok : Bool
  makeGlsink1Ok : Bool
  makeGlsink2Ok : Bool
  addManyOk : Bool
  videoconvertSinkPadOk : Bool
  capsfilterSinkPadOk : Bool
  linkVideoconvertCapsfilterOk : Bool
  linkCapsfilterQueue1Ok : Bool
  linkQueue1TeeOk : Bool
  queue2SinkPadOk : Bool
  linkTeePad1Queue2Ok : Bool
  queue3SinkPadOk : Bool
  linkTeePad2Queue3Ok : Bool
  linkQueue2Glsink1Ok : Bool
  linkQueue3Glsink2Ok : Bool
deriving DecidableEq, Repr

/-- How `Player::new` comes back to its caller. -/
inductive NewOutcome where
  /-- `Ok(Self { .. })`. -/
  | ok : NewOutcome
  /-- An `Err` propagated by `?`. -/
  | err : NewOutcome
  /-- An `unwrap()` on a failed step fired. -/
  | panics : NewOutcome
deriving DecidableEq, Repr

/-- `Player::new`, as outcome plus the list of pipeline state-changing effects
it performs (it performs none: no `set_state`/`send_event` appears in the
function). -/
def playerNew (w : ConstructionWorld) : NewOutcome × List PipelineAction :=
  match w.initOk with
  | false => (.err, [])
  | true =>
  match w.makeSourceOk with
  | false => (.err, [])
  | true =>
  match w.makeCapsfilterOk with
  | false => (.err, [])
  | true =>
  match w.makeVideoconvertOk with
  | false => (.err, [])
  | true =>
  match w.makeQueue1Ok with
  | false => (.err, [])
  | true =>
  match w.makeQueue2Ok with
  | false => (.err, [])
  | true =>
  match w.makeQueue3Ok with
  | false => (.err, [])
  | true =>
  match w.makeTeeOk with
  | false => (.err, [])
  | true =>
  match w.requestTeePad1Ok with
  | false => (.panics, [])
  | true =>
  match w.requestTeePad2Ok with
  | false => (.panics, [])
  | true =>
  match w.makeAppsink1Ok with
  | false => (.err, [])
  | true =>
  match w.castAppsink1Ok with
  | false => (.panics, [])
  | true =>
  match w.makeAppsink2Ok with
  | false => (.err, [])
  | true =>
  match w.castAppsink2Ok with
  | false => (.panics, [])
  | true =>
  match w.makeGlsink1Ok with
  | false => (.err, [])
  | true =>
  match w.makeGlsink2Ok with
  | false => (.err, [])
  | true =>
  match w.addManyOk with
  | false => (.err, [])
  | true =>
  match w.videoconvertSinkPadOk with
  | false => (.panics, [])
  | true =>
  match w.capsfilterSinkPadOk with
  | false => (.panics, [])
  | true =>
  match w.linkVideoconvertCapsfilterOk with
  | false => (.panics, [])
  | true =>
  match w.linkCapsfilterQueue1Ok with
  | false => (.err, [])
  | true =>
  match w.linkQueue1TeeOk with
  | false => (.err, [])
  | true =>
  match w.queue2SinkPadOk with
  | false => (.panics, [])
  | true =>
  match w.linkTeePad1Queue2Ok with
  | false => (.err, [])
  | true =>
  match w.queue3SinkPadOk with
  | false => (.panics, [])
  | true =>
  match w.linkTeePad2Queue3Ok with
  | false => (.err, [])
  | true =>
  match w.linkQueue2Glsink1Ok with
  | false => (.err, [])
  | true =>
  match w.linkQueue3Glsink2Ok with
  | false => (.err, [])
  | true =>
  (.ok, [])

/-- Every fallible step of `Player::new` succeeds. -/
def allConstructionOk (w : ConstructionWorld) : Bool :=
  w.initOk && w.makeSourceOk && w.makeCapsfilterOk && w.makeVideoconvertOk &&
  w.makeQueue1Ok && w.makeQueue2Ok && w.makeQueue3Ok && w.makeTeeOk &&
  w.requestTeePad1Ok && w.requestTeePad2Ok && w.makeAppsink1Ok &&
  w.castAppsink1Ok && w.makeAppsink2Ok && w.castAppsink2Ok &&
  w.makeGlsink1Ok && w.makeGlsink2Ok && w.addManyOk &&
  w.videoconvertSinkPadOk && w.capsfilterSinkPadOk &&
  w.linkVideoconvertCapsfilterOk && w.linkCapsfilterQueue1Ok &&
  w.linkQueue1TeeOk && w.queue2SinkPadOk && w.linkTeePad1Queue2Ok &&
  w.queue3SinkPadOk && w.linkTeePad2Queue3Ok && w.linkQueue2Glsink1Ok &&
  w.linkQueue3Glsink2Ok

/-- The all-success construction world. -/
def allOkWorld : ConstructionWorld :=
  ⟨true, true, true, true, true, true, true, true, true, true, true, true,
   true, true, true, true, true, true, true, true, true, true, true, true,
   true, true, true, true⟩

/-- The world where only `videoconvert.link(&capsfilter)` (main.rs line 102,
an `unwrap`, not a `?`) fails. -/
def linkFailWorld : ConstructionWorld :=
  { allOkWorld with linkVideoconvertCapsfilterOk := false }

/-! ## Concrete values used by witnesses and counterexamples -/

/-- A sample with no extractable buffer (both accessors empty). -/
def sampleA : Sample := { bufferOwned := none, caps := none }

/-- A second, distinct sample. -/
def sampleC : Sample := { bufferOwned := some { readableFrame := none }, caps := none }

/-- A sample whose GL video frame reports texture id 0, so
`NonZero::try_from(texture)` fails. -/
def zeroTextureSample : Sample :=
  { bufferOwned :=
      some { readableFrame := some { textureId0 := some 0, width := 640, height := 480 } },
    caps := some { videoInfo := some { infoWidth := 640, infoHeight := 480 } } }

/-! ## Helper lemmas -/

/-- One `RenderingSetup` invocation never changes an already-populated
`gst_gl_context` slot, whatever its parameters. -/
theorem slotAfter_populated (c : GstGlContext) (inv : SetupInvocation) :
    slotAfter (some c) inv = some c := by
  obtain ⟨api, wrapped, activateOk, fillInfoOk⟩ := inv
  cases api <;> rfl

/-- `Player::new` reaches `Ok` exactly when every fallible step succeeded,
and performs no pipeline state transition in any case. -/
theorem playerNew_cases (w : ConstructionWorld) :
    ((playerNew w).1 = NewOutcome.ok ↔ allConstructionOk w = true) ∧
      (playerNew w).2 = [] := by
  obtain ⟨f1, f2, f3, f4, f5, f6, f7, f8, f9, f10, f11, f12, f13, f14, f15,
    f16, f17, f18, f19, f20, f21, f22, f23, f24, f25, f26, f27, f28⟩ := w
  simp only [playerNew, allConstructionOk]
  cases f1
  · exact ⟨by simp, rfl⟩
  cases f2
  · exact ⟨by simp, rfl⟩
  cases f3
  · exact ⟨by simp, rfl⟩
  cases f4
  · exact ⟨by simp, rfl⟩
  cases f5
  · exact ⟨by simp, rfl⟩
  cases f6
  · exact ⟨by simp, rfl⟩
  cases f7
  · exact ⟨by simp, rfl⟩
  cases f8
  · exact ⟨by simp, rfl⟩
  cases f9
  · exact ⟨by simp, rfl⟩
  cases f10
  · exact ⟨by simp, rfl⟩
  cases f11
  · exact ⟨by simp, rfl⟩
  cases f12
  · exact ⟨by simp, rfl⟩
  cases f13
  · exact ⟨by simp, rfl⟩
  cases f14
  · exact ⟨by simp, rfl⟩
  cases f15
  · exact ⟨by simp, rfl⟩
  cases f16
  · exact ⟨by simp, rfl⟩
  cases f17
  · exact ⟨by simp, rfl⟩
  cases f18
  · exact ⟨by simp, rfl⟩
  cases f19
  · exact ⟨by simp, rfl⟩
  cases f20
  · exact ⟨by simp, rfl⟩
  cases f21
  · exact ⟨by simp, rfl⟩
  cases f22
  · exact ⟨by simp, rfl⟩
  cases f23
  · exact ⟨by simp, rfl⟩
  cases f24
  · exact ⟨by simp, rfl⟩
  cases f25
  · exact ⟨by simp, rfl⟩
  cases f26
  · exact ⟨by simp, rfl⟩
  cases f27
  · exact ⟨by simp, rfl⟩
  cases f28
  · exact ⟨by simp, rfl⟩
  exact ⟨by simp, rfl⟩

/-! ## Claims -/

/-- C1: for every mailbox slot and every nonempty sequence of publishes by the
new-sample callback followed by one read, the read returns the last published
frame; each publish unconditionally overwrites the slot, so intermediate
frames are discarded. -/
theorem mailbox_read_returns_last (slot : Option Sample) (frames : List Sample)
    (h : frames ≠ []) :
    readMailbox (publishAll slot frames) = some (frames.getLast h) := by
  induction frames generalizing slot with
  | nil => exact absurd rfl h
  | cons a rest ih =>
    cases rest with
    | nil => rfl
    | cons b r =>
      have hr : (b :: r : List Sample) ≠ [] := by simp
      rw [List.getLast_cons hr]
      exact ih (publish slot a) hr

/-- C1 witness: publishing `sampleA` then `sampleC` and reading gives
`sampleC`. -/
theorem mailbox_read_returns_last_witness :
    ([sampleA, sampleC] : List Sample) ≠ [] ∧
      readMailbox (publishAll none [sampleA, sampleC]) = some sampleC :=
  ⟨by simp, mailbox_read_returns_last none [sampleA, sampleC] (by simp)⟩

/-- C2: the `RenderingSetup` arm is idempotent per consumer: on an
already-populated `gst_gl_context` slot it is a no-op that keeps the stored
context, and after any further sequence of invocations the slot still holds
the context stored by the first invocation. -/
theorem materialize_idempotent (c : GstGlContext) (wrapped : Option GstGlContext)
    (activateOk fillInfoOk : Bool) (invs : List SetupInvocation) :
    renderingSetup .nativeOpenGL (some c) wrapped activateOk fillInfoOk =
        .done (some c) ∧
      slotAfterAll (some c) invs = some c := by
  refine ⟨rfl, ?_⟩
  induction invs with
  | nil => rfl
  | cons i r ih =>
    show slotAfterAll (slotAfter (some c) i) r = some c
    rw [slotAfter_populated]
    exact ih

/-- C3: a `NeedContext` message resolving to a branch whose `gst_gl_context`
slot is still empty is answered with `BusSyncReply::Drop`, and neither slot is
modified and no `set_context` call is made. -/
theorem empty_context_negotiation_drops (context1 context2 : Option GstGlContext)
    (ctxType : String) :
    busSyncHandler none context2 (.needContext "glsink1" ctxType) =
        (.drop, (none, context2), []) ∧
      busSyncHandler context1 none (.needContext "glsink2" ctxType) =
        (.drop, (context1, none), []) := by
  constructor <;> rfl

/-- C4: a `NeedContext` message whose parent name is not a recognized branch
name is passed through (`BusSyncReply::Pass`), with both `gst_gl_context`
slots unmodified and no `set_context` call made. -/
theorem unrecognized_parent_passes (context1 context2 : Option GstGlContext)
    (parentName ctxType : String) (h : resolveBranch parentName = none) :
    busSyncHandler context1 context2 (.needContext parentName ctxType) =
      (.pass, (context1, context2), []) := by
  simp [busSyncHandler, h]

/-- C4 witness: the parent name `"uridecodebin3"` is unrecognized and the
handler passes it through with both slots unchanged. -/
theorem unrecognized_parent_passes_witness :
    resolveBranch "uridecodebin3" = none ∧
      busSyncHandler none none (.needContext "uridecodebin3" "gst.gl.GLDisplay") =
        (.pass, (none, none), []) :=
  ⟨by decide, unrecognized_parent_passes none none "uridecodebin3" "gst.gl.GLDisplay"
    (by decide)⟩

/-- C5 counterexample: on a sample whose texture id is 0, texture extraction
fails and the `BeforeRendering` arm panics (`expect` fires) instead of
skipping the tick, refuting the claim that extraction failure is non-fatal. -/
theorem extraction_failure_not_skip_cex :
    textureExtractionFails zeroTextureSample = true ∧
      beforeRendering (some zeroTextureSample) = RenderOutcome.panics ∧
      RenderOutcome.panics ≠ RenderOutcome.skip :=
  ⟨by decide, by decide, by decide⟩

/-- C5 amended: whenever texture extraction fails on the held sample, the
`BeforeRendering` arm panics — a fatal outcome, not a skipped tick. -/
theorem extraction_failure_panics (s : Sample)
    (h : textureExtractionFails s = true) :
    beforeRendering (some s) = RenderOutcome.panics := by
  obtain ⟨bo, cp⟩ := s
  cases bo with
  | none => rfl
  | some buffer =>
    cases cp with
    | none => rfl
    | some caps =>
      obtain ⟨vi⟩ := caps
      cases vi with
      | none => rfl
      | some info =>
        obtain ⟨rf⟩ := buffer
        cases rf with
        | none => rfl
        | some frame =>
          obtain ⟨tid, wdt, hgt⟩ := frame
          cases tid with
          | none => rfl
          | some texture =>
            have hz : texture = 0 := by simpa [textureExtractionFails] using h
            simp [beforeRendering, hz]

/-- C5 witness for the amended claim, at the zero-texture sample. -/
theorem extraction_failure_panics_witness :
    textureExtractionFails zeroTextureSample = true ∧
      beforeRendering (some zeroTextureSample) = RenderOutcome.panics :=
  ⟨by decide, extraction_failure_panics zeroTextureSample (by decide)⟩

/-- C6: in the teardown trace of `Drop for Player`, every occurrence of the
EOS signal precedes every occurrence of the transition to `Null`. -/
theorem eos_before_null (i j : Nat)
    (hi : playerDropTrace.get? i = some .sendEos)
    (hj : playerDropTrace.get? j = some (.setState .null)) : i < j := by
  cases i with
  | zero =>
    cases j with
    | zero => simp [playerDropTrace] at hj
    | succ n => exact Nat.succ_pos n
  | succ m =>
    cases m with
    | zero => simp [playerDropTrace] at hi
    | succ k => simp [playerDropTrace] at hi

/-- C6 witness: EOS is at index 0 and the `Null` transition at index 1. -/
theorem eos_before_null_witness :
    playerDropTrace.get? 0 = some .sendEos ∧
      playerDropTrace.get? 1 = some (.setState .null) ∧ 0 < 1 :=
  ⟨rfl, rfl, eos_before_null 0 1 rfl rfl⟩

/-- C7 counterexample: when `videoconvert.link(&capsfilter)` fails,
construction has a failure but `Player::new` panics (the call is `unwrap`ped)
rather than returning an error, refuting the claim that every construction
failure is returned as an error. -/
theorem construction_link_failure_panics_cex :
    allConstructionOk linkFailWorld = false ∧
      (playerNew linkFailWorld).1 = NewOutcome.panics ∧
      NewOutcome.panics ≠ NewOutcome.err :=
  ⟨by decide, by decide, by decide⟩

/-- C7 amended: every failure among the fallible construction steps makes
`Player::new` abort — with a returned error or a panic, never `Ok` — and
`Player::new` performs no pipeline state transition in any case, so no
partially constructed pipeline is left running. -/
theorem construction_failure_aborts (w : ConstructionWorld)
    (h : allConstructionOk w = false) :
    (playerNew w).1 ≠ NewOutcome.ok ∧ (playerNew w).2 = [] := by
  refine ⟨fun hok => ?_, (playerNew_cases w).2⟩
  have := (playerNew_cases w).1.mp hok
  rw [this] at h
  exact Bool.noConfusion h

/-- C7 witness for the amended claim, at the world where only the
`videoconvert → capsfilter` link fails. -/
theorem construction_failure_aborts_witness :
    allConstructionOk linkFailWorld = false ∧
      ((playerNew linkFailWorld).1 ≠ NewOutcome.ok ∧
        (playerNew linkFailWorld).2 = []) :=
  ⟨by decide, construction_failure_aborts linkFailWorld (by decide)⟩

/-- C8: a mailbox read with no frame present returns `none` (never an error),
and the `BeforeRendering` arm treats the empty mailbox as a no-op, skipping
that tick's video content. -/
theorem empty_mailbox_skips :
    readMailbox (none : Option Sample) = none ∧
      beforeRendering none = RenderOutcome.skip :=
  ⟨rfl, rfl⟩

/-- C9: the two branches' mailboxes are isolated: a publish to one leaves the
other unchanged, and after publishing `a` to branch 1 and `b` to branch 2,
branch 1's read and render tick expose `a` while branch 2's expose `b`. -/
theorem branch_mailboxes_isolated (slots : PlayerSlots) (a b : Sample) :
    (publishBranch1 slots a).mailbox2 = slots.mailbox2 ∧
    (publishBranch2 slots b).mailbox1 = slots.mailbox1 ∧
    readMailbox (publishBranch2 (publishBranch1 slots a) b).mailbox1 = some a ∧
    readMailbox (publishBranch2 (publishBranch1 slots a) b).mailbox2 = some b ∧
    beforeRendering (publishBranch2 (publishBranch1 slots a) b).mailbox1 =
      beforeRendering (some a) ∧
    beforeRendering (publishBranch2 (publishBranch1 slots a) b).mailbox2 =
      beforeRendering (some b) := by
  refine ⟨rfl, rfl, rfl, rfl, rfl, rfl⟩

/-- C10: a `RenderingSetup` event with a graphics API other than native
OpenGL panics (`panic!("unsupported graphics API")`); it neither returns an
error nor skips setup. -/
theorem non_native_opengl_setup_panics (api : GraphicsAPI)
    (h : api ≠ GraphicsAPI.nativeOpenGL) (slot wrapped : Option GstGlContext)
    (activateOk fillInfoOk : Bool) :
    renderingSetup api slot wrapped activateOk fillInfoOk = SetupOutcome.panics := by
  cases api with
  | nativeOpenGL => exact absurd rfl h
  | wgpu => rfl
  | otherAPI => rfl

/-- C10 witness: at the WGPU graphics API the setup arm panics. -/
theorem non_native_opengl_setup_panics_witness :
    GraphicsAPI.wgpu ≠ GraphicsAPI.nativeOpenGL ∧
      renderingSetup .wgpu none none true true = SetupOutcome.panics :=
  ⟨by decide, non_native_opengl_setup_panics .wgpu (by decide) none none true true⟩

end GstSlint
